import Mathlib

/-!
Verification development for the ITB-100 thermal battery model
(`src/models/itb100_system_model.py`).

The core under verification is the phase-change thermal-storage simulation:
the specification record `ITB100Specs`, the mutable simulation state
`ThermalState`, the heat-transfer engine (`step_discharge`, `step_charge`,
`get_state_of_charge`) and the cycle drivers (`simulate_discharge`,
`simulate_charge`).  Python floats are modelled as real numbers; the in-place
mutation of the model object is modelled by explicit state passing: each step
returns a `StepResult` carrying the returned pair `(Q, T_out)` together with
the updated `ThermalState`.
-/

/-- Design-specification record of the ITB-100 (`ITB100Specs` dataclass).
Field defaults are the dataclass defaults.  Fields of the dataclass that are
not read by any of the modelled operations (geometry, hydraulic detail,
performance targets, economics) are omitted. -/
structure ITB100Specs where
  T_phase : ℝ := 58.0
  delta_H_fusion : ℝ := 264.4e3
  cp_sat_solid : ℝ := 2100
  cp_sat_liquid : ℝ := 3500
  M_sat : ℝ := 227.1
  m_dot_design : ℝ := 0.074
  cp_water : ℝ := 4186
  UA_effective : ℝ := 111.7
  E_storage : ℝ := 16.71
deriving Inhabited

/-- The default specification, as constructed by `ITB100Specs()` in the
source (all dataclass defaults). -/
def defaultSpecs : ITB100Specs := {}

/-- Mutable simulation state of `ThermalBatteryModel`: SAT temperature
(`self.T_sat`), solid mass fraction (`self.solid_fraction`), stored energy in
joules (`self.E_stored`) and elapsed simulation time in seconds
(`self.time`). -/
structure ThermalState where
  T_sat : ℝ
  solid_fraction : ℝ
  E_stored : ℝ
  time : ℝ
deriving Inhabited

/-- `ThermalBatteryModel.reset_state`: fully solid SAT at 20 degC, zero stored
energy, zero elapsed time. -/
def reset_state : ThermalState := ⟨20.0, 1.0, 0.0, 0.0⟩

/-- `ThermalBatteryModel.__init__`: stores the specs and calls `reset_state`;
the constructor performs no validation of the specification values, so the
initial state is produced for every (even non-physical) specification. -/
def ThermalBatteryModel.init (_sp : ITB100Specs) : ThermalState := reset_state

/-- `ThermalBatteryModel.get_state_of_charge`:
`max(0, min(1, E_stored / (E_storage * 3.6e6)))`. -/
noncomputable def get_state_of_charge (sp : ITB100Specs) (s : ThermalState) : ℝ :=
  max 0 (min 1 (s.E_stored / (sp.E_storage * 3.6e6)))

/-- Number of transfer units `NTU = UA_effective / (m_dot_design * cp_water)`
(computed identically in `step_discharge` and `step_charge`). -/
noncomputable def NTU (sp : ITB100Specs) : ℝ :=
  sp.UA_effective / (sp.m_dot_design * sp.cp_water)

/-- Heat-exchanger effectiveness `1 - exp(-NTU)` for a single-pass
exchanger. -/
noncomputable def effectiveness (sp : ITB100Specs) : ℝ :=
  1 - Real.exp (-(NTU sp))

/-- Pre-override transfer power of `step_discharge` (lines 202-211):
`max(0, effectiveness * m_dot_design * cp_water * (T_sat - T_water_in))`. -/
noncomputable def dischargeQ (sp : ITB100Specs) (T_sat T_water_in : ℝ) : ℝ :=
  max 0 (effectiveness sp * (sp.m_dot_design * sp.cp_water * (T_sat - T_water_in)))

/-- Transfer power of `step_charge` (lines 271-280):
`max(0, effectiveness * m_dot_design * cp_water * (T_water_in - T_sat))`. -/
noncomputable def chargeQ (sp : ITB100Specs) (T_sat T_water_in : ℝ) : ℝ :=
  max 0 (effectiveness sp * (sp.m_dot_design * sp.cp_water * (T_water_in - T_sat)))

/-- Result of one engine step: the returned power `Q` (W), the returned
outlet water temperature `T_out` (degC), and the updated state. -/
structure StepResult where
  Q : ℝ
  T_out : ℝ
  state : ThermalState
deriving Inhabited

/-- `ThermalBatteryModel.step_discharge(T_water_in, dt)` (lines 178-249).
Guard 1: fully solid (`solid_fraction >= 0.99`) and strictly below the phase
temperature.  Guard 2: `T_sat <= T_water_in + 0.5`.  Otherwise the
effectiveness-NTU power `dischargeQ` is drawn from the store, updating the
state in one of three regimes (liquid sensible cooling / phase change /
fully-solid sensible cooling, the last with the returned power overridden to
zero); `time` advances by `dt` on every non-guard path. -/
noncomputable def step_discharge (sp : ITB100Specs) (s : ThermalState)
    (T_water_in dt : ℝ) : StepResult :=
  if s.solid_fraction ≥ 0.99 ∧ s.T_sat < sp.T_phase then
    ⟨0, T_water_in, s⟩
  else if s.T_sat ≤ T_water_in + 0.5 then
    ⟨0, T_water_in, s⟩
  else
    let Q := dischargeQ sp s.T_sat T_water_in
    let T_out := if 0 < Q then T_water_in + Q / (sp.m_dot_design * sp.cp_water)
                 else T_water_in
    if 0 < Q then
      let dE := Q * dt
      if sp.T_phase + 0.1 < s.T_sat then
        let T1 := s.T_sat - dE / (sp.M_sat * sp.cp_sat_liquid)
        ⟨Q, T_out,
          ⟨if T1 ≤ sp.T_phase then sp.T_phase else T1,
           s.solid_fraction, s.E_stored - dE, s.time + dt⟩⟩
      else if s.solid_fraction < 0.99 then
        ⟨Q, T_out,
          ⟨sp.T_phase,
           min 1 (s.solid_fraction + dE / sp.delta_H_fusion / sp.M_sat),
           s.E_stored - dE, s.time + dt⟩⟩
      else
        ⟨0, T_out,
          ⟨s.T_sat - dE / (sp.M_sat * sp.cp_sat_solid),
           s.solid_fraction, s.E_stored - dE, s.time + dt⟩⟩
    else
      ⟨Q, T_out, { s with time := s.time + dt }⟩

/-- `ThermalBatteryModel.step_charge(T_water_in, dt)` (lines 251-317).
Guard 1: fully liquid (`solid_fraction <= 0.01`) and `T_sat >= T_phase + 5`.
Guard 2: `T_water_in <= T_sat + 0.5`.  Otherwise the effectiveness-NTU power
`chargeQ` is absorbed, updating the state in one of three regimes (solid
sensible heating / melting / liquid superheating); `time` advances by `dt` on
every non-guard path. -/
noncomputable def step_charge (sp : ITB100Specs) (s : ThermalState)
    (T_water_in dt : ℝ) : StepResult :=
  if s.solid_fraction ≤ 0.01 ∧ sp.T_phase + 5 ≤ s.T_sat then
    ⟨0, T_water_in, s⟩
  else if T_water_in ≤ s.T_sat + 0.5 then
    ⟨0, T_water_in, s⟩
  else
    let Q := chargeQ sp s.T_sat T_water_in
    let T_out := if 0 < Q then T_water_in - Q / (sp.m_dot_design * sp.cp_water)
                 else T_water_in
    if 0 < Q then
      let dE := Q * dt
      if s.T_sat < sp.T_phase - 0.1 then
        let T1 := s.T_sat + dE / (sp.M_sat * sp.cp_sat_solid)
        ⟨Q, T_out,
          ⟨if sp.T_phase ≤ T1 then sp.T_phase else T1,
           s.solid_fraction, s.E_stored + dE, s.time + dt⟩⟩
      else if 0.01 < s.solid_fraction then
        ⟨Q, T_out,
          ⟨sp.T_phase,
           max 0 (s.solid_fraction - dE / sp.delta_H_fusion / sp.M_sat),
           s.E_stored + dE, s.time + dt⟩⟩
      else
        ⟨Q, T_out,
          ⟨s.T_sat + dE / (sp.M_sat * sp.cp_sat_liquid),
           s.solid_fraction, s.E_stored + dE, s.time + dt⟩⟩
    else
      ⟨Q, T_out, { s with time := s.time + dt }⟩

/-- One recorded sample of `simulate_charge`.  The Python loop appends, per
iteration, the pre-clamp engine power, the available solar power, the clamped
(recorded) power `min(Q_actual, Q_available)`, the outlet temperature and the
post-step model state; the pre-step state is carried for stating properties.
The Python history arrays are projections of these fields (powers divided by
1000 for the kW series, state of charge and solid fraction read off
`statePost`). -/
structure ChargeSample where
  statePre : ThermalState
  Q_engine : ℝ
  Q_avail : ℝ
  Q_rec : ℝ
  T_out : ℝ
  statePost : ThermalState
deriving Inhabited

/-- Loop body of `simulate_charge` (lines 431-454): iterate over the solar
profile (pairs of available power and collector temperature), call
`step_charge`, clamp the reported power with `min`, record, and break once the
state of charge reaches 0.99. -/
noncomputable def simulate_charge_aux (sp : ITB100Specs) (dt : ℝ) :
    List (ℝ × ℝ) → ThermalState → List ChargeSample
  | [], _ => []
  | (Q_available, T_in) :: rest, s =>
    let r := step_charge sp s T_in dt
    let x : ChargeSample := ⟨s, r.Q, Q_available, min r.Q Q_available, r.T_out, r.state⟩
    if 0.99 ≤ get_state_of_charge sp r.state then [x]
    else x :: simulate_charge_aux sp dt rest r.state

/-- `simulate_charge(specs, solar_profile, T_collector, dt)` (lines 396-471):
starts from the depleted state (20 degC, fully solid, zero energy) and runs
the charge loop over the profile. -/
noncomputable def simulate_charge (sp : ITB100Specs) (profile : List (ℝ × ℝ))
    (dt : ℝ) : List ChargeSample :=
  simulate_charge_aux sp dt profile ⟨20.0, 1.0, 0.0, 0.0⟩

/-- One recorded sample of `simulate_discharge`: exactly the tuple appended to
the six history arrays per iteration (lines 361-367): time in hours (before
the increment), post-step SAT temperature, outlet temperature, delivered power
in kW, post-step state of charge, post-step solid fraction. -/
structure DischargeSample where
  time_h : ℝ
  T_sat : ℝ
  T_out : ℝ
  Q_kW : ℝ
  SOC : ℝ
  solid_fraction : ℝ
deriving Inhabited

/-- Stopping condition of the discharge loop after a recorded sample, at
post-increment time `t'`: state of charge below 1 percent, or delivered power
below 100 W after the first simulated hour (`Q_kW * 1000` is the raw power in
watts). -/
def dischargeStop (x : DischargeSample) (t' : ℝ) : Prop :=
  x.SOC < 0.01 ∨ (1000 * x.Q_kW < 100 ∧ 3600 < t')

/-- Loop of `simulate_discharge` (lines 354-373), with an explicit fuel
argument bounding the number of iterations.  The returned flag is `true` when
the loop exited through its own conditions (the `while time < max_time` test
or the break after recording) and `false` only if the fuel ran out while the
`while` condition still held; the fuel chosen in `simulate_discharge` is
proved sufficient, so the flag models genuine termination. -/
noncomputable def dischargeLoop (sp : ITB100Specs) (T_supply dt : ℝ) :
    ℕ → ℝ → ThermalState → List DischargeSample × Bool
  | 0, t, _ => ([], if t < 43200 then false else true)
  | fuel + 1, t, s =>
    if t < 43200 then
      let r := step_discharge sp s T_supply dt
      let x : DischargeSample :=
        ⟨t / 3600, r.state.T_sat, r.T_out, r.Q / 1000,
         get_state_of_charge sp r.state, r.state.solid_fraction⟩
      if get_state_of_charge sp r.state < 0.01 ∨ (r.Q < 100 ∧ 3600 < t + dt) then
        ([x], true)
      else
        let rest := dischargeLoop sp T_supply dt fuel (t + dt) r.state
        (x :: rest.1, rest.2)
    else
      ([], true)

/-- Initial state of `simulate_discharge` (lines 341-344): at the phase-change
temperature, 5 percent solid, full rated energy, zero elapsed time. -/
def dischargeInit (sp : ITB100Specs) : ThermalState :=
  ⟨sp.T_phase, 0.05, sp.E_storage * 3.6e6, 0.0⟩

/-- Fuel sufficient for the 12-hour (43200 s) discharge loop at step `dt`. -/
noncomputable def dischargeFuel (dt : ℝ) : ℕ := ⌈(43200 : ℝ) / dt⌉₊

/-- `simulate_discharge(specs, T_supply, T_return_target, dt)` (lines
323-390); `T_return_target` is unused by the source loop and omitted. -/
noncomputable def simulate_discharge (sp : ITB100Specs) (T_supply dt : ℝ) :
    List DischargeSample × Bool :=
  dischargeLoop sp T_supply dt (dischargeFuel dt) 0 (dischargeInit sp)

/-! ### Basic facts about the engine quantities -/

theorem NTU_pos (sp : ITB100Specs) (hUA : 0 < sp.UA_effective)
    (hm : 0 < sp.m_dot_design) (hc : 0 < sp.cp_water) : 0 < NTU sp :=
  div_pos hUA (mul_pos hm hc)

theorem effectiveness_pos (sp : ITB100Specs) (hUA : 0 < sp.UA_effective)
    (hm : 0 < sp.m_dot_design) (hc : 0 < sp.cp_water) : 0 < effectiveness sp := by
  have h : Real.exp (-(NTU sp)) < 1 :=
    Real.exp_lt_one_iff.mpr (neg_neg_iff_pos.mpr (NTU_pos sp hUA hm hc))
  unfold effectiveness
  linarith

theorem dischargeQ_nonneg (sp : ITB100Specs) (T_sat T_in : ℝ) :
    0 ≤ dischargeQ sp T_sat T_in := le_max_left _ _

theorem chargeQ_nonneg (sp : ITB100Specs) (T_sat T_in : ℝ) :
    0 ≤ chargeQ sp T_sat T_in := le_max_left _ _

theorem dischargeQ_pos (sp : ITB100Specs) {T_sat T_in : ℝ}
    (hUA : 0 < sp.UA_effective) (hm : 0 < sp.m_dot_design) (hc : 0 < sp.cp_water)
    (hT : T_in < T_sat) : 0 < dischargeQ sp T_sat T_in := by
  have h : 0 < effectiveness sp * (sp.m_dot_design * sp.cp_water * (T_sat - T_in)) :=
    mul_pos (effectiveness_pos sp hUA hm hc)
      (mul_pos (mul_pos hm hc) (sub_pos.mpr hT))
  exact lt_max_iff.mpr (Or.inr h)

theorem chargeQ_pos (sp : ITB100Specs) {T_sat T_in : ℝ}
    (hUA : 0 < sp.UA_effective) (hm : 0 < sp.m_dot_design) (hc : 0 < sp.cp_water)
    (hT : T_sat < T_in) : 0 < chargeQ sp T_sat T_in := by
  have h : 0 < effectiveness sp * (sp.m_dot_design * sp.cp_water * (T_in - T_sat)) :=
    mul_pos (effectiveness_pos sp hUA hm hc)
      (mul_pos (mul_pos hm hc) (sub_pos.mpr hT))
  exact lt_max_iff.mpr (Or.inr h)

theorem get_state_of_charge_mem_Icc (sp : ITB100Specs) (s : ThermalState) :
    0 ≤ get_state_of_charge sp s ∧ get_state_of_charge sp s ≤ 1 := by
  unfold get_state_of_charge
  constructor
  · exact le_max_left _ _
  · exact max_le (by norm_num) (min_le_left _ _)

/-! ### Branch-equation lemmas for `step_discharge` -/

theorem step_discharge_guard1 (sp : ITB100Specs) (s : ThermalState) (T_in dt : ℝ)
    (h : s.solid_fraction ≥ 0.99 ∧ s.T_sat < sp.T_phase) :
    step_discharge sp s T_in dt = ⟨0, T_in, s⟩ := by
  unfold step_discharge
  rw [if_pos h]

theorem step_discharge_guard2 (sp : ITB100Specs) (s : ThermalState) (T_in dt : ℝ)
    (h1 : ¬(s.solid_fraction ≥ 0.99 ∧ s.T_sat < sp.T_phase))
    (h2 : s.T_sat ≤ T_in + 0.5) :
    step_discharge sp s T_in dt = ⟨0, T_in, s⟩ := by
  unfold step_discharge
  rw [if_neg h1, if_pos h2]

theorem step_discharge_liquid (sp : ITB100Specs) (s : ThermalState) (T_in dt : ℝ)
    (h1 : ¬(s.solid_fraction ≥ 0.99 ∧ s.T_sat < sp.T_phase))
    (h2 : ¬(s.T_sat ≤ T_in + 0.5))
    (hQ : 0 < dischargeQ sp s.T_sat T_in)
    (hT : sp.T_phase + 0.1 < s.T_sat) :
    step_discharge sp s T_in dt =
      ⟨dischargeQ sp s.T_sat T_in,
       T_in + dischargeQ sp s.T_sat T_in / (sp.m_dot_design * sp.cp_water),
       ⟨if s.T_sat - dischargeQ sp s.T_sat T_in * dt / (sp.M_sat * sp.cp_sat_liquid)
             ≤ sp.T_phase then sp.T_phase
         else s.T_sat - dischargeQ sp s.T_sat T_in * dt / (sp.M_sat * sp.cp_sat_liquid),
        s.solid_fraction, s.E_stored - dischargeQ sp s.T_sat T_in * dt,
        s.time + dt⟩⟩ := by
  unfold step_discharge
  rw [if_neg h1, if_neg h2]
  simp only [if_pos hQ, if_pos hT]

theorem step_discharge_phase (sp : ITB100Specs) (s : ThermalState) (T_in dt : ℝ)
    (h1 : ¬(s.solid_fraction ≥ 0.99 ∧ s.T_sat < sp.T_phase))
    (h2 : ¬(s.T_sat ≤ T_in + 0.5))
    (hQ : 0 < dischargeQ sp s.T_sat T_in)
    (hT : ¬(sp.T_phase + 0.1 < s.T_sat))
    (hsf : s.solid_fraction < 0.99) :
    step_discharge sp s T_in dt =
      ⟨dischargeQ sp s.T_sat T_in,
       T_in + dischargeQ sp s.T_sat T_in / (sp.m_dot_design * sp.cp_water),
       ⟨sp.T_phase,
        min 1 (s.solid_fraction +
          dischargeQ sp s.T_sat T_in * dt / sp.delta_H_fusion / sp.M_sat),
        s.E_stored - dischargeQ sp s.T_sat T_in * dt,
        s.time + dt⟩⟩ := by
  unfold step_discharge
  rw [if_neg h1, if_neg h2]
  simp only [if_pos hQ, if_neg hT, if_pos hsf]

theorem step_discharge_solid (sp : ITB100Specs) (s : ThermalState) (T_in dt : ℝ)
    (h1 : ¬(s.solid_fraction ≥ 0.99 ∧ s.T_sat < sp.T_phase))
    (h2 : ¬(s.T_sat ≤ T_in + 0.5))
    (hQ : 0 < dischargeQ sp s.T_sat T_in)
    (hT : ¬(sp.T_phase + 0.1 < s.T_sat))
    (hsf : ¬(s.solid_fraction < 0.99)) :
    step_discharge sp s T_in dt =
      ⟨0,
       T_in + dischargeQ sp s.T_sat T_in / (sp.m_dot_design * sp.cp_water),
       ⟨s.T_sat - dischargeQ sp s.T_sat T_in * dt / (sp.M_sat * sp.cp_sat_solid),
        s.solid_fraction, s.E_stored - dischargeQ sp s.T_sat T_in * dt,
        s.time + dt⟩⟩ := by
  unfold step_discharge
  rw [if_neg h1, if_neg h2]
  simp only [if_pos hQ, if_neg hT, if_neg hsf]

theorem step_discharge_noQ (sp : ITB100Specs) (s : ThermalState) (T_in dt : ℝ)
    (h1 : ¬(s.solid_fraction ≥ 0.99 ∧ s.T_sat < sp.T_phase))
    (h2 : ¬(s.T_sat ≤ T_in + 0.5))
    (hQ : ¬(0 < dischargeQ sp s.T_sat T_in)) :
    step_discharge sp s T_in dt =
      ⟨dischargeQ sp s.T_sat T_in, T_in, { s with time := s.time + dt }⟩ := by
  unfold step_discharge
  rw [if_neg h1, if_neg h2]
  simp only [if_neg hQ]

/-! ### Branch-equation lemmas for `step_charge` -/

theorem step_charge_guard1 (sp : ITB100Specs) (s : ThermalState) (T_in dt : ℝ)
    (h : s.solid_fraction ≤ 0.01 ∧ sp.T_phase + 5 ≤ s.T_sat) :
    step_charge sp s T_in dt = ⟨0, T_in, s⟩ := by
  unfold step_charge
  rw [if_pos h]

theorem step_charge_guard2 (sp : ITB100Specs) (s : ThermalState) (T_in dt : ℝ)
    (h1 : ¬(s.solid_fraction ≤ 0.01 ∧ sp.T_phase + 5 ≤ s.T_sat))
    (h2 : T_in ≤ s.T_sat + 0.5) :
    step_charge sp s T_in dt = ⟨0, T_in, s⟩ := by
  unfold step_charge
  rw [if_neg h1, if_pos h2]

theorem step_charge_solid (sp : ITB100Specs) (s : ThermalState) (T_in dt : ℝ)
    (h1 : ¬(s.solid_fraction ≤ 0.01 ∧ sp.T_phase + 5 ≤ s.T_sat))
    (h2 : ¬(T_in ≤ s.T_sat + 0.5))
    (hQ : 0 < chargeQ sp s.T_sat T_in)
    (hT : s.T_sat < sp.T_phase - 0.1) :
    step_charge sp s T_in dt =
      ⟨chargeQ sp s.T_sat T_in,
       T_in - chargeQ sp s.T_sat T_in / (sp.m_dot_design * sp.cp_water),
       ⟨if sp.T_phase ≤ s.T_sat + chargeQ sp s.T_sat T_in * dt / (sp.M_sat * sp.cp_sat_solid)
             then sp.T_phase
         else s.T_sat + chargeQ sp s.T_sat T_in * dt / (sp.M_sat * sp.cp_sat_solid),
        s.solid_fraction, s.E_stored + chargeQ sp s.T_sat T_in * dt,
        s.time + dt⟩⟩ := by
  unfold step_charge
  rw [if_neg h1, if_neg h2]
  simp only [if_pos hQ, if_pos hT]

theorem step_charge_melt (sp : ITB100Specs) (s : ThermalState) (T_in dt : ℝ)
    (h1 : ¬(s.solid_fraction ≤ 0.01 ∧ sp.T_phase + 5 ≤ s.T_sat))
    (h2 : ¬(T_in ≤ s.T_sat + 0.5))
    (hQ : 0 < chargeQ sp s.T_sat T_in)
    (hT : ¬(s.T_sat < sp.T_phase - 0.1))
    (hsf : 0.01 < s.solid_fraction) :
    step_charge sp s T_in dt =
      ⟨chargeQ sp s.T_sat T_in,
       T_in - chargeQ sp s.T_sat T_in / (sp.m_dot_design * sp.cp_water),
       ⟨sp.T_phase,
        max 0 (s.solid_fraction -
          chargeQ sp s.T_sat T_in * dt / sp.delta_H_fusion / sp.M_sat),
        s.E_stored + chargeQ sp s.T_sat T_in * dt,
        s.time + dt⟩⟩ := by
  unfold step_charge
  rw [if_neg h1, if_neg h2]
  simp only [if_pos hQ, if_neg hT, if_pos hsf]

theorem step_charge_superheat (sp : ITB100Specs) (s : ThermalState) (T_in dt : ℝ)
    (h1 : ¬(s.solid_fraction ≤ 0.01 ∧ sp.T_phase + 5 ≤ s.T_sat))
    (h2 : ¬(T_in ≤ s.T_sat + 0.5))
    (hQ : 0 < chargeQ sp s.T_sat T_in)
    (hT : ¬(s.T_sat < sp.T_phase - 0.1))
    (hsf : ¬(0.01 < s.solid_fraction)) :
    step_charge sp s T_in dt =
      ⟨chargeQ sp s.T_sat T_in,
       T_in - chargeQ sp s.T_sat T_in / (sp.m_dot_design * sp.cp_water),
       ⟨s.T_sat + chargeQ sp s.T_sat T_in * dt / (sp.M_sat * sp.cp_sat_liquid),
        s.solid_fraction, s.E_stored + chargeQ sp s.T_sat T_in * dt,
        s.time + dt⟩⟩ := by
  unfold step_charge
  rw [if_neg h1, if_neg h2]
  simp only [if_pos hQ, if_neg hT, if_neg hsf]

theorem step_charge_noQ (sp : ITB100Specs) (s : ThermalState) (T_in dt : ℝ)
    (h1 : ¬(s.solid_fraction ≤ 0.01 ∧ sp.T_phase + 5 ≤ s.T_sat))
    (h2 : ¬(T_in ≤ s.T_sat + 0.5))
    (hQ : ¬(0 < chargeQ sp s.T_sat T_in)) :
    step_charge sp s T_in dt =
      ⟨chargeQ sp s.T_sat T_in, T_in, { s with time := s.time + dt }⟩ := by
  unfold step_charge
  rw [if_neg h1, if_neg h2]
  simp only [if_neg hQ]

/-! ### Structural lemmas about single steps -/

theorem step_discharge_E_le (sp : ITB100Specs) (s : ThermalState) (T_in dt : ℝ)
    (hdt : 0 ≤ dt) :
    (step_discharge sp s T_in dt).state.E_stored ≤ s.E_stored := by
  by_cases h1 : s.solid_fraction ≥ 0.99 ∧ s.T_sat < sp.T_phase
  · rw [step_discharge_guard1 sp s T_in dt h1]
  by_cases h2 : s.T_sat ≤ T_in + 0.5
  · rw [step_discharge_guard2 sp s T_in dt h1 h2]
  by_cases hQ : 0 < dischargeQ sp s.T_sat T_in
  · have hE : 0 ≤ dischargeQ sp s.T_sat T_in * dt := mul_nonneg hQ.le hdt
    by_cases hT : sp.T_phase + 0.1 < s.T_sat
    · rw [step_discharge_liquid sp s T_in dt h1 h2 hQ hT]
      simpa using hE
    by_cases hsf : s.solid_fraction < 0.99
    · rw [step_discharge_phase sp s T_in dt h1 h2 hQ hT hsf]
      simpa using hE
    · rw [step_discharge_solid sp s T_in dt h1 h2 hQ hT hsf]
      simpa using hE
  · rw [step_discharge_noQ sp s T_in dt h1 h2 hQ]

theorem step_charge_E_ge (sp : ITB100Specs) (s : ThermalState) (T_in dt : ℝ)
    (hdt : 0 ≤ dt) :
    s.E_stored ≤ (step_charge sp s T_in dt).state.E_stored := by
  by_cases h1 : s.solid_fraction ≤ 0.01 ∧ sp.T_phase + 5 ≤ s.T_sat
  · rw [step_charge_guard1 sp s T_in dt h1]
  by_cases h2 : T_in ≤ s.T_sat + 0.5
  · rw [step_charge_guard2 sp s T_in dt h1 h2]
  by_cases hQ : 0 < chargeQ sp s.T_sat T_in
  · have hE : 0 ≤ chargeQ sp s.T_sat T_in * dt := mul_nonneg hQ.le hdt
    by_cases hT : s.T_sat < sp.T_phase - 0.1
    · rw [step_charge_solid sp s T_in dt h1 h2 hQ hT]
      simpa using hE
    by_cases hsf : 0.01 < s.solid_fraction
    · rw [step_charge_melt sp s T_in dt h1 h2 hQ hT hsf]
      simpa using hE
    · rw [step_charge_superheat sp s T_in dt h1 h2 hQ hT hsf]
      simpa using hE
  · rw [step_charge_noQ sp s T_in dt h1 h2 hQ]

theorem step_discharge_energy (sp : ITB100Specs) (s : ThermalState) (T_in dt : ℝ)
    (h1 : ¬(s.solid_fraction ≥ 0.99 ∧ s.T_sat < sp.T_phase))
    (h2 : ¬(s.T_sat ≤ T_in + 0.5))
    (hQ : 0 < dischargeQ sp s.T_sat T_in) :
    (step_discharge sp s T_in dt).state.E_stored =
      s.E_stored - dischargeQ sp s.T_sat T_in * dt := by
  by_cases hT : sp.T_phase + 0.1 < s.T_sat
  · rw [step_discharge_liquid sp s T_in dt h1 h2 hQ hT]
  by_cases hsf : s.solid_fraction < 0.99
  · rw [step_discharge_phase sp s T_in dt h1 h2 hQ hT hsf]
  · rw [step_discharge_solid sp s T_in dt h1 h2 hQ hT hsf]

theorem step_discharge_outlet (sp : ITB100Specs) (s : ThermalState) (T_in dt : ℝ)
    (h1 : ¬(s.solid_fraction ≥ 0.99 ∧ s.T_sat < sp.T_phase))
    (h2 : ¬(s.T_sat ≤ T_in + 0.5))
    (hQ : 0 < dischargeQ sp s.T_sat T_in) :
    (step_discharge sp s T_in dt).T_out =
      T_in + dischargeQ sp s.T_sat T_in / (sp.m_dot_design * sp.cp_water) := by
  by_cases hT : sp.T_phase + 0.1 < s.T_sat
  · rw [step_discharge_liquid sp s T_in dt h1 h2 hQ hT]
  by_cases hsf : s.solid_fraction < 0.99
  · rw [step_discharge_phase sp s T_in dt h1 h2 hQ hT hsf]
  · rw [step_discharge_solid sp s T_in dt h1 h2 hQ hT hsf]

theorem step_charge_energy (sp : ITB100Specs) (s : ThermalState) (T_in dt : ℝ)
    (h1 : ¬(s.solid_fraction ≤ 0.01 ∧ sp.T_phase + 5 ≤ s.T_sat))
    (h2 : ¬(T_in ≤ s.T_sat + 0.5))
    (hQ : 0 < chargeQ sp s.T_sat T_in) :
    (step_charge sp s T_in dt).state.E_stored =
      s.E_stored + chargeQ sp s.T_sat T_in * dt := by
  by_cases hT : s.T_sat < sp.T_phase - 0.1
  · rw [step_charge_solid sp s T_in dt h1 h2 hQ hT]
  by_cases hsf : 0.01 < s.solid_fraction
  · rw [step_charge_melt sp s T_in dt h1 h2 hQ hT hsf]
  · rw [step_charge_superheat sp s T_in dt h1 h2 hQ hT hsf]

theorem step_charge_outlet (sp : ITB100Specs) (s : ThermalState) (T_in dt : ℝ)
    (h1 : ¬(s.solid_fraction ≤ 0.01 ∧ sp.T_phase + 5 ≤ s.T_sat))
    (h2 : ¬(T_in ≤ s.T_sat + 0.5))
    (hQ : 0 < chargeQ sp s.T_sat T_in) :
    (step_charge sp s T_in dt).T_out =
      T_in - chargeQ sp s.T_sat T_in / (sp.m_dot_design * sp.cp_water) := by
  by_cases hT : s.T_sat < sp.T_phase - 0.1
  · rw [step_charge_solid sp s T_in dt h1 h2 hQ hT]
  by_cases hsf : 0.01 < s.solid_fraction
  · rw [step_charge_melt sp s T_in dt h1 h2 hQ hT hsf]
  · rw [step_charge_superheat sp s T_in dt h1 h2 hQ hT hsf]

theorem step_charge_energy_returned (sp : ITB100Specs) (s : ThermalState)
    (T_in dt : ℝ) :
    (step_charge sp s T_in dt).state.E_stored =
      s.E_stored + (step_charge sp s T_in dt).Q * dt := by
  by_cases h1 : s.solid_fraction ≤ 0.01 ∧ sp.T_phase + 5 ≤ s.T_sat
  · rw [step_charge_guard1 sp s T_in dt h1]; simp
  by_cases h2 : T_in ≤ s.T_sat + 0.5
  · rw [step_charge_guard2 sp s T_in dt h1 h2]; simp
  by_cases hQ : 0 < chargeQ sp s.T_sat T_in
  · by_cases hT : s.T_sat < sp.T_phase - 0.1
    · rw [step_charge_solid sp s T_in dt h1 h2 hQ hT]
    by_cases hsf : 0.01 < s.solid_fraction
    · rw [step_charge_melt sp s T_in dt h1 h2 hQ hT hsf]
    · rw [step_charge_superheat sp s T_in dt h1 h2 hQ hT hsf]
  · rw [step_charge_noQ sp s T_in dt h1 h2 hQ]
    have h0 : chargeQ sp s.T_sat T_in = 0 :=
      le_antisymm (not_lt.mp hQ) (chargeQ_nonneg sp s.T_sat T_in)
    simp [h0]

theorem step_discharge_sf_bounds (sp : ITB100Specs) (s : ThermalState)
    (T_in dt : ℝ) (hH : 0 < sp.delta_H_fusion) (hM : 0 < sp.M_sat)
    (hdt : 0 ≤ dt) (hsf0 : 0 ≤ s.solid_fraction) (hsf1 : s.solid_fraction ≤ 1) :
    0 ≤ (step_discharge sp s T_in dt).state.solid_fraction ∧
      (step_discharge sp s T_in dt).state.solid_fraction ≤ 1 := by
  by_cases h1 : s.solid_fraction ≥ 0.99 ∧ s.T_sat < sp.T_phase
  · rw [step_discharge_guard1 sp s T_in dt h1]; exact ⟨hsf0, hsf1⟩
  by_cases h2 : s.T_sat ≤ T_in + 0.5
  · rw [step_discharge_guard2 sp s T_in dt h1 h2]; exact ⟨hsf0, hsf1⟩
  by_cases hQ : 0 < dischargeQ sp s.T_sat T_in
  · by_cases hT : sp.T_phase + 0.1 < s.T_sat
    · rw [step_discharge_liquid sp s T_in dt h1 h2 hQ hT]; exact ⟨hsf0, hsf1⟩
    by_cases hsf : s.solid_fraction < 0.99
    · rw [step_discharge_phase sp s T_in dt h1 h2 hQ hT hsf]
      have hd : 0 ≤ dischargeQ sp s.T_sat T_in * dt / sp.delta_H_fusion / sp.M_sat :=
        div_nonneg (div_nonneg (mul_nonneg hQ.le hdt) hH.le) hM.le
      constructor
      · exact le_min (by norm_num) (by simpa using add_nonneg hsf0 hd)
      · exact min_le_left _ _
    · rw [step_discharge_solid sp s T_in dt h1 h2 hQ hT hsf]; exact ⟨hsf0, hsf1⟩
  · rw [step_discharge_noQ sp s T_in dt h1 h2 hQ]; exact ⟨hsf0, hsf1⟩

theorem step_charge_sf_bounds (sp : ITB100Specs) (s : ThermalState)
    (T_in dt : ℝ) (hH : 0 < sp.delta_H_fusion) (hM : 0 < sp.M_sat)
    (hdt : 0 ≤ dt) (hsf0 : 0 ≤ s.solid_fraction) (hsf1 : s.solid_fraction ≤ 1) :
    0 ≤ (step_charge sp s T_in dt).state.solid_fraction ∧
      (step_charge sp s T_in dt).state.solid_fraction ≤ 1 := by
  by_cases h1 : s.solid_fraction ≤ 0.01 ∧ sp.T_phase + 5 ≤ s.T_sat
  · rw [step_charge_guard1 sp s T_in dt h1]; exact ⟨hsf0, hsf1⟩
  by_cases h2 : T_in ≤ s.T_sat + 0.5
  · rw [step_charge_guard2 sp s T_in dt h1 h2]; exact ⟨hsf0, hsf1⟩
  by_cases hQ : 0 < chargeQ sp s.T_sat T_in
  · by_cases hT : s.T_sat < sp.T_phase - 0.1
    · rw [step_charge_solid sp s T_in dt h1 h2 hQ hT]; exact ⟨hsf0, hsf1⟩
    by_cases hsf : 0.01 < s.solid_fraction
    · rw [step_charge_melt sp s T_in dt h1 h2 hQ hT hsf]
      have hd : 0 ≤ chargeQ sp s.T_sat T_in * dt / sp.delta_H_fusion / sp.M_sat :=
        div_nonneg (div_nonneg (mul_nonneg hQ.le hdt) hH.le) hM.le
      constructor
      · exact le_max_left _ _
      · exact max_le (by norm_num)
          (by simpa using le_trans (sub_le_self _ hd) hsf1)
    · rw [step_charge_superheat sp s T_in dt h1 h2 hQ hT hsf]; exact ⟨hsf0, hsf1⟩
  · rw [step_charge_noQ sp s T_in dt h1 h2 hQ]; exact ⟨hsf0, hsf1⟩

/-! ### Latent-heat plateau invariant -/

/-- Latent-heat plateau predicate on the open window strictly between the
guard thresholds of the two step functions: whenever the solid fraction is
strictly between 0.01 and 0.99, the medium sits exactly at the phase-change
temperature. -/
def PhasePlateau (sp : ITB100Specs) (s : ThermalState) : Prop :=
  0.01 < s.solid_fraction → s.solid_fraction < 0.99 → s.T_sat = sp.T_phase

theorem phasePlateau_step_discharge (sp : ITB100Specs) (s : ThermalState)
    (T_in dt : ℝ) (hs : PhasePlateau sp s) :
    PhasePlateau sp (step_discharge sp s T_in dt).state := by
  by_cases h1 : s.solid_fraction ≥ 0.99 ∧ s.T_sat < sp.T_phase
  · rw [step_discharge_guard1 sp s T_in dt h1]; exact hs
  by_cases h2 : s.T_sat ≤ T_in + 0.5
  · rw [step_discharge_guard2 sp s T_in dt h1 h2]; exact hs
  by_cases hQ : 0 < dischargeQ sp s.T_sat T_in
  · by_cases hT : sp.T_phase + 0.1 < s.T_sat
    · rw [step_discharge_liquid sp s T_in dt h1 h2 hQ hT]
      intro ha hb
      have := hs ha hb
      simp only at ha hb
      linarith [hs ha hb]
    by_cases hsf : s.solid_fraction < 0.99
    · rw [step_discharge_phase sp s T_in dt h1 h2 hQ hT hsf]
      intro _ _
      rfl
    · rw [step_discharge_solid sp s T_in dt h1 h2 hQ hT hsf]
      intro _ hb
      simp only at hb
      exact absurd hb hsf
  · rw [step_discharge_noQ sp s T_in dt h1 h2 hQ]
    exact hs

theorem phasePlateau_step_charge (sp : ITB100Specs) (s : ThermalState)
    (T_in dt : ℝ) (hs : PhasePlateau sp s) :
    PhasePlateau sp (step_charge sp s T_in dt).state := by
  by_cases h1 : s.solid_fraction ≤ 0.01 ∧ sp.T_phase + 5 ≤ s.T_sat
  · rw [step_charge_guard1 sp s T_in dt h1]; exact hs
  by_cases h2 : T_in ≤ s.T_sat + 0.5
  · rw [step_charge_guard2 sp s T_in dt h1 h2]; exact hs
  by_cases hQ : 0 < chargeQ sp s.T_sat T_in
  · by_cases hT : s.T_sat < sp.T_phase - 0.1
    · rw [step_charge_solid sp s T_in dt h1 h2 hQ hT]
      intro ha hb
      simp only at ha hb
      linarith [hs ha hb]
    by_cases hsf : 0.01 < s.solid_fraction
    · rw [step_charge_melt sp s T_in dt h1 h2 hQ hT hsf]
      intro _ _
      rfl
    · rw [step_charge_superheat sp s T_in dt h1 h2 hQ hT hsf]
      intro ha _
      simp only at ha
      exact absurd ha hsf
  · rw [step_charge_noQ sp s T_in dt h1 h2 hQ]
    exact hs

/-- States reachable from the freshly constructed model (`reset_state`) by
engine steps with positive time increments. -/
inductive Reachable (sp : ITB100Specs) : ThermalState → Prop
  | init : Reachable sp reset_state
  | discharge (s : ThermalState) (T_in dt : ℝ) (h : Reachable sp s)
      (hdt : 0 < dt) : Reachable sp (step_discharge sp s T_in dt).state
  | charge (s : ThermalState) (T_in dt : ℝ) (h : Reachable sp s)
      (hdt : 0 < dt) : Reachable sp (step_charge sp s T_in dt).state

theorem reachable_phasePlateau (sp : ITB100Specs) (s : ThermalState)
    (h : Reachable sp s) : PhasePlateau sp s := by
  induction h with
  | init => intro _ hb; simp only [reset_state] at hb; norm_num at hb
  | discharge s T_in dt _ _ ih => exact phasePlateau_step_discharge sp s T_in dt ih
  | charge s T_in dt _ _ ih => exact phasePlateau_step_charge sp s T_in dt ih

/-! ### State-of-charge monotonicity helpers -/

theorem get_state_of_charge_mono (sp : ITB100Specs) (hE : 0 < sp.E_storage)
    {s s' : ThermalState} (h : s.E_stored ≤ s'.E_stored) :
    get_state_of_charge sp s ≤ get_state_of_charge sp s' := by
  unfold get_state_of_charge
  have hEm : (0 : ℝ) < sp.E_storage * 3.6e6 := by
    have h36 : (0 : ℝ) < 3.6e6 := by norm_num
    exact mul_pos hE h36
  exact max_le_max le_rfl (min_le_min le_rfl ((div_le_div_iff_of_pos_right hEm).mpr h))

theorem soc_step_discharge_le (sp : ITB100Specs) (s : ThermalState)
    (T_in dt : ℝ) (hE : 0 < sp.E_storage) (hdt : 0 ≤ dt) :
    get_state_of_charge sp (step_discharge sp s T_in dt).state ≤
      get_state_of_charge sp s :=
  get_state_of_charge_mono sp hE (step_discharge_E_le sp s T_in dt hdt)

theorem soc_step_charge_ge (sp : ITB100Specs) (s : ThermalState)
    (T_in dt : ℝ) (hE : 0 < sp.E_storage) (hdt : 0 ≤ dt) :
    get_state_of_charge sp s ≤
      get_state_of_charge sp (step_charge sp s T_in dt).state :=
  get_state_of_charge_mono sp hE (step_charge_E_ge sp s T_in dt hdt)

/-! ### Uninterrupted sequences of steps -/

/-- State after an uninterrupted sequence of discharge steps, one per listed
pair of inlet temperature and time increment. -/
noncomputable def runDischarge (sp : ITB100Specs) (steps : List (ℝ × ℝ))
    (s : ThermalState) : ThermalState :=
  steps.foldl (fun st p => (step_discharge sp st p.1 p.2).state) s

/-- State after an uninterrupted sequence of charge steps. -/
noncomputable def runCharge (sp : ITB100Specs) (steps : List (ℝ × ℝ))
    (s : ThermalState) : ThermalState :=
  steps.foldl (fun st p => (step_charge sp st p.1 p.2).state) s

theorem runDischarge_soc_le (sp : ITB100Specs) (hE : 0 < sp.E_storage)
    (steps : List (ℝ × ℝ)) :
    ∀ s : ThermalState, (∀ p ∈ steps, 0 ≤ p.2) →
      get_state_of_charge sp (runDischarge sp steps s) ≤ get_state_of_charge sp s := by
  induction steps with
  | nil => intro s _; simp [runDischarge]
  | cons p rest ih =>
    intro s hsteps
    have h1 : get_state_of_charge sp (step_discharge sp s p.1 p.2).state ≤
        get_state_of_charge sp s :=
      soc_step_discharge_le sp s p.1 p.2 hE (hsteps p (List.mem_cons_self p rest))
    have h2 := ih (step_discharge sp s p.1 p.2).state
      (fun q hq => hsteps q (List.mem_cons_of_mem p hq))
    calc get_state_of_charge sp (runDischarge sp (p :: rest) s)
        = get_state_of_charge sp (runDischarge sp rest (step_discharge sp s p.1 p.2).state) := rfl
      _ ≤ get_state_of_charge sp (step_discharge sp s p.1 p.2).state := h2
      _ ≤ get_state_of_charge sp s := h1

theorem runCharge_soc_ge (sp : ITB100Specs) (hE : 0 < sp.E_storage)
    (steps : List (ℝ × ℝ)) :
    ∀ s : ThermalState, (∀ p ∈ steps, 0 ≤ p.2) →
      get_state_of_charge sp s ≤ get_state_of_charge sp (runCharge sp steps s) := by
  induction steps with
  | nil => intro s _; simp [runCharge]
  | cons p rest ih =>
    intro s hsteps
    have h1 : get_state_of_charge sp s ≤
        get_state_of_charge sp (step_charge sp s p.1 p.2).state :=
      soc_step_charge_ge sp s p.1 p.2 hE (hsteps p (List.mem_cons_self p rest))
    have h2 := ih (step_charge sp s p.1 p.2).state
      (fun q hq => hsteps q (List.mem_cons_of_mem p hq))
    calc get_state_of_charge sp s
        ≤ get_state_of_charge sp (step_charge sp s p.1 p.2).state := h1
      _ ≤ get_state_of_charge sp (runCharge sp rest (step_charge sp s p.1 p.2).state) := h2
      _ = get_state_of_charge sp (runCharge sp (p :: rest) s) := rfl

/-! ### Charge-loop sample facts -/

theorem charge_sample_spec (sp : ITB100Specs) (dt : ℝ) (profile : List (ℝ × ℝ)) :
    ∀ (s : ThermalState) (x : ChargeSample),
      x ∈ simulate_charge_aux sp dt profile s →
      x.Q_rec = min x.Q_engine x.Q_avail ∧ x.Q_rec ≤ x.Q_avail ∧
        x.statePost.E_stored = x.statePre.E_stored + x.Q_engine * dt := by
  induction profile with
  | nil =>
    intro s x hx
    simp [simulate_charge_aux] at hx
  | cons p rest ih =>
    intro s x hx
    obtain ⟨Qav, Tin⟩ := p
    simp only [simulate_charge_aux] at hx
    split_ifs at hx with hc
    · rw [List.mem_singleton] at hx
      subst hx
      exact ⟨rfl, min_le_right _ _, step_charge_energy_returned sp s Tin dt⟩
    · rcases List.mem_cons.mp hx with h | h
      · subst h
        exact ⟨rfl, min_le_right _ _, step_charge_energy_returned sp s Tin dt⟩
      · exact ih _ _ h

/-! ### Discharge-loop facts -/

theorem dischargeLoop_empty_of_time (sp : ITB100Specs) (T_supply dt : ℝ)
    (fuel : ℕ) (t : ℝ) (s : ThermalState) (ht : ¬(t < 43200)) :
    (dischargeLoop sp T_supply dt fuel t s).1 = [] := by
  cases fuel with
  | zero => simp [dischargeLoop]
  | succ n => simp [dischargeLoop, if_neg ht]

theorem dischargeLoop_flag (sp : ITB100Specs) (T_supply dt : ℝ) (fuel : ℕ) :
    ∀ (t : ℝ) (s : ThermalState), 43200 ≤ t + fuel * dt →
      (dischargeLoop sp T_supply dt fuel t s).2 = true := by
  induction fuel with
  | zero =>
    intro t s h
    simp only [Nat.cast_zero, zero_mul, add_zero] at h
    simp [dischargeLoop, not_lt.mpr h]
  | succ n ih =>
    intro t s h
    simp only [dischargeLoop]
    split_ifs with ht hstop
    · rfl
    · have h' : 43200 ≤ (t + dt) + n * dt := by push_cast at h ⊢; linarith
      exact ih (t + dt) _ h'
    · rfl

theorem dischargeLoop_time_lt (sp : ITB100Specs) (T_supply dt : ℝ) (fuel : ℕ) :
    ∀ (t : ℝ) (s : ThermalState) (x : DischargeSample),
      x ∈ (dischargeLoop sp T_supply dt fuel t s).1 → x.time_h < 12 := by
  induction fuel with
  | zero =>
    intro t s x hx
    simp [dischargeLoop] at hx
  | succ n ih =>
    intro t s x hx
    simp only [dischargeLoop] at hx
    split_ifs at hx with ht hstop
    · rw [List.mem_singleton] at hx
      subst hx
      show t / 3600 < 12
      linarith [(div_lt_iff₀ (by norm_num : (0:ℝ) < 3600)).mpr (by linarith : t < 12 * 3600)]
    · rcases List.mem_cons.mp hx with h | h
      · subst h
        show t / 3600 < 12
        linarith [(div_lt_iff₀ (by norm_num : (0:ℝ) < 3600)).mpr (by linarith : t < 12 * 3600)]
      · exact ih (t + dt) _ x h
    · simp at hx

theorem dischargeLoop_ne_nil (sp : ITB100Specs) (T_supply dt : ℝ) (n : ℕ)
    (t : ℝ) (s : ThermalState) (hlt : t < 43200) :
    (dischargeLoop sp T_supply dt (n + 1) t s).1 ≠ [] := by
  simp only [dischargeLoop, if_pos hlt]
  split_ifs <;> simp

theorem dischargeLoop_empty_late (sp : ITB100Specs) (T_supply dt : ℝ) (fuel : ℕ)
    (t : ℝ) (s : ThermalState)
    (hok : (dischargeLoop sp T_supply dt fuel t s).2 = true)
    (hnil : (dischargeLoop sp T_supply dt fuel t s).1 = []) : 43200 ≤ t := by
  cases fuel with
  | zero =>
    by_contra hlt
    rw [not_le] at hlt
    simp [dischargeLoop, if_pos hlt] at hok
  | succ n =>
    by_contra hlt
    rw [not_le] at hlt
    exact dischargeLoop_ne_nil sp T_supply dt n t s hlt hnil

theorem dischargeLoop_succ_stop (sp : ITB100Specs) (T_supply dt : ℝ) (n : ℕ)
    (t : ℝ) (s : ThermalState) (ht : t < 43200)
    (hstop : get_state_of_charge sp (step_discharge sp s T_supply dt).state < 0.01 ∨
      ((step_discharge sp s T_supply dt).Q < 100 ∧ 3600 < t + dt)) :
    dischargeLoop sp T_supply dt (n + 1) t s =
      ([⟨t / 3600, (step_discharge sp s T_supply dt).state.T_sat,
         (step_discharge sp s T_supply dt).T_out,
         (step_discharge sp s T_supply dt).Q / 1000,
         get_state_of_charge sp (step_discharge sp s T_supply dt).state,
         (step_discharge sp s T_supply dt).state.solid_fraction⟩], true) := by
  simp only [dischargeLoop]
  rw [if_pos ht, if_pos hstop]

theorem dischargeLoop_succ_go (sp : ITB100Specs) (T_supply dt : ℝ) (n : ℕ)
    (t : ℝ) (s : ThermalState) (ht : t < 43200)
    (hstop : ¬(get_state_of_charge sp (step_discharge sp s T_supply dt).state < 0.01 ∨
      ((step_discharge sp s T_supply dt).Q < 100 ∧ 3600 < t + dt))) :
    dischargeLoop sp T_supply dt (n + 1) t s =
      (⟨t / 3600, (step_discharge sp s T_supply dt).state.T_sat,
        (step_discharge sp s T_supply dt).T_out,
        (step_discharge sp s T_supply dt).Q / 1000,
        get_state_of_charge sp (step_discharge sp s T_supply dt).state,
        (step_discharge sp s T_supply dt).state.solid_fraction⟩ ::
        (dischargeLoop sp T_supply dt n (t + dt) (step_discharge sp s T_supply dt).state).1,
       (dischargeLoop sp T_supply dt n (t + dt) (step_discharge sp s T_supply dt).state).2) := by
  simp only [dischargeLoop]
  rw [if_pos ht, if_neg hstop]

theorem dischargeLoop_no_early_stop (sp : ITB100Specs) (T_supply dt : ℝ) (fuel : ℕ) :
    ∀ (t : ℝ) (s : ThermalState) (i : ℕ),
      i + 1 < ((dischargeLoop sp T_supply dt fuel t s).1).length →
      t + ((i : ℝ) + 1) * dt < 43200 ∧
      ¬ dischargeStop (((dischargeLoop sp T_supply dt fuel t s).1).getD i default)
          (t + ((i : ℝ) + 1) * dt) := by
  induction fuel with
  | zero =>
    intro t s i hi
    simp [dischargeLoop] at hi
  | succ n ih =>
    intro t s i hi
    by_cases ht : t < 43200
    · by_cases hstop : get_state_of_charge sp (step_discharge sp s T_supply dt).state < 0.01 ∨
        ((step_discharge sp s T_supply dt).Q < 100 ∧ 3600 < t + dt)
      · rw [dischargeLoop_succ_stop sp T_supply dt n t s ht hstop] at hi
        simp at hi
      · have heq := dischargeLoop_succ_go sp T_supply dt n t s ht hstop
        rw [heq] at hi
        cases i with
        | zero =>
          have hne : (dischargeLoop sp T_supply dt n (t + dt)
              (step_discharge sp s T_supply dt).state).1 ≠ [] := by
            intro h0
            rw [List.length_cons, h0] at hi
            simp at hi
          have htdt : t + dt < 43200 := by
            by_contra hge
            rw [not_lt] at hge
            exact hne (dischargeLoop_empty_of_time sp T_supply dt n (t + dt) _
              (not_lt.mpr hge))
          constructor
          · push_cast
            linarith
          · rw [heq]
            have hQ : (1000 : ℝ) * ((step_discharge sp s T_supply dt).Q / 1000) =
                (step_discharge sp s T_supply dt).Q := by ring
            simp only [dischargeStop, List.getD_cons_zero]
            push_cast
            intro hcon
            apply hstop
            rcases hcon with h | ⟨ha, hb⟩
            · exact Or.inl h
            · exact Or.inr ⟨by simpa [hQ] using ha, by linarith⟩
        | succ j =>
          have hj : j + 1 < ((dischargeLoop sp T_supply dt n (t + dt)
              (step_discharge sp s T_supply dt).state).1).length := by
            rw [List.length_cons] at hi
            omega
          have hrec := ih (t + dt) (step_discharge sp s T_supply dt).state j hj
          constructor
          · have h1 := hrec.1
            push_cast at h1 ⊢
            linarith
          · rw [heq]
            have h2 := hrec.2
            have harith : t + (((j : ℕ) : ℝ) + 1 + 1) * dt =
                (t + dt) + (((j : ℕ) : ℝ) + 1) * dt := by
              ring
            push_cast
            rw [harith]
            simpa [List.getD_cons_succ] using h2
    · have hnil := dischargeLoop_empty_of_time sp T_supply dt (n + 1) t s ht
      rw [hnil] at hi
      simp at hi

theorem dischargeLoop_last_stop (sp : ITB100Specs) (T_supply dt : ℝ) (fuel : ℕ) :
    ∀ (t : ℝ) (s : ThermalState),
      (dischargeLoop sp T_supply dt fuel t s).2 = true →
      (dischargeLoop sp T_supply dt fuel t s).1 ≠ [] →
      dischargeStop (((dischargeLoop sp T_supply dt fuel t s).1).getD
          (((dischargeLoop sp T_supply dt fuel t s).1).length - 1) default)
        (t + (((dischargeLoop sp T_supply dt fuel t s).1).length : ℝ) * dt) ∨
      43200 ≤ t + (((dischargeLoop sp T_supply dt fuel t s).1).length : ℝ) * dt := by
  induction fuel with
  | zero =>
    intro t s _ hne
    exact absurd rfl hne
  | succ n ih =>
    intro t s hok hne
    by_cases ht : t < 43200
    · by_cases hstop : get_state_of_charge sp (step_discharge sp s T_supply dt).state < 0.01 ∨
        ((step_discharge sp s T_supply dt).Q < 100 ∧ 3600 < t + dt)
      · rw [dischargeLoop_succ_stop sp T_supply dt n t s ht hstop]
        left
        have hQ : (1000 : ℝ) * ((step_discharge sp s T_supply dt).Q / 1000) =
            (step_discharge sp s T_supply dt).Q := by ring
        have hget : ∀ x : DischargeSample, ([x].getD ([x].length - 1) default) = x := by
          intro x
          simp
        rw [hget]
        simp only [dischargeStop, List.length_cons, List.length_nil]
        push_cast
        rcases hstop with h | ⟨ha, hb⟩
        · exact Or.inl h
        · refine Or.inr ⟨by rw [hQ]; exact ha, by linarith⟩
      · have heq := dischargeLoop_succ_go sp T_supply dt n t s ht hstop
        rw [heq] at hok ⊢
        simp only at hok
        by_cases hrest : (dischargeLoop sp T_supply dt n (t + dt)
            (step_discharge sp s T_supply dt).state).1 = []
        · right
          have hlate : (43200 : ℝ) ≤ t + dt :=
            dischargeLoop_empty_late sp T_supply dt n (t + dt) _ hok hrest
          rw [hrest]
          simp only [List.length_cons, List.length_nil]
          push_cast
          linarith
        · have hrec := ih (t + dt) (step_discharge sp s T_supply dt).state hok hrest
          have hlen : 0 < ((dischargeLoop sp T_supply dt n (t + dt)
              (step_discharge sp s T_supply dt).state).1).length :=
            List.length_pos.mpr hrest
          obtain ⟨m, hm⟩ : ∃ m, ((dischargeLoop sp T_supply dt n (t + dt)
              (step_discharge sp s T_supply dt).state).1).length = m + 1 :=
            ⟨_, (Nat.succ_pred_eq_of_pos hlen).symm⟩
          rw [hm] at hrec
          rw [Nat.add_sub_cancel] at hrec
          simp only [List.length_cons, hm, Nat.add_sub_cancel, List.getD_cons_succ]
          have htime : t + ((m + 1 + 1 : ℕ) : ℝ) * dt =
              (t + dt) + ((m + 1 : ℕ) : ℝ) * dt := by
            push_cast
            ring
          rw [htime]
          exact hrec
    · exact absurd (dischargeLoop_empty_of_time sp T_supply dt (n + 1) t s ht) hne

/-! ### Remaining auxiliary facts -/

theorem defaultSpecs_T_phase : defaultSpecs.T_phase = 58.0 := rfl

theorem defaultSpecs_delta_H_fusion : defaultSpecs.delta_H_fusion = 264.4e3 := rfl

theorem defaultSpecs_cp_sat_solid : defaultSpecs.cp_sat_solid = 2100 := rfl

theorem defaultSpecs_cp_sat_liquid : defaultSpecs.cp_sat_liquid = 3500 := rfl

theorem defaultSpecs_M_sat : defaultSpecs.M_sat = 227.1 := rfl

theorem defaultSpecs_m_dot_design : defaultSpecs.m_dot_design = 0.074 := rfl

theorem defaultSpecs_cp_water : defaultSpecs.cp_water = 4186 := rfl

theorem defaultSpecs_UA_effective : defaultSpecs.UA_effective = 111.7 := rfl

theorem defaultSpecs_E_storage : defaultSpecs.E_storage = 16.71 := rfl

theorem dischargeFuel_spec (dt : ℝ) (hdt : 0 < dt) :
    (43200 : ℝ) ≤ 0 + (dischargeFuel dt : ℝ) * dt := by
  have h1 : (43200 : ℝ) / dt ≤ (dischargeFuel dt : ℝ) := Nat.le_ceil _
  have h2 : ((43200 : ℝ) / dt) * dt = 43200 := div_mul_cancel₀ _ hdt.ne'
  have h3 := mul_le_mul_of_nonneg_right h1 hdt.le
  rw [h2] at h3
  linarith

theorem step_discharge_time (sp : ITB100Specs) (s : ThermalState) (T_in dt : ℝ)
    (h1 : ¬(s.solid_fraction ≥ 0.99 ∧ s.T_sat < sp.T_phase))
    (h2 : ¬(s.T_sat ≤ T_in + 0.5)) :
    (step_discharge sp s T_in dt).state.time = s.time + dt := by
  by_cases hQ : 0 < dischargeQ sp s.T_sat T_in
  · by_cases hT : sp.T_phase + 0.1 < s.T_sat
    · rw [step_discharge_liquid sp s T_in dt h1 h2 hQ hT]
    by_cases hsf : s.solid_fraction < 0.99
    · rw [step_discharge_phase sp s T_in dt h1 h2 hQ hT hsf]
    · rw [step_discharge_solid sp s T_in dt h1 h2 hQ hT hsf]
  · rw [step_discharge_noQ sp s T_in dt h1 h2 hQ]

theorem step_charge_time (sp : ITB100Specs) (s : ThermalState) (T_in dt : ℝ)
    (h1 : ¬(s.solid_fraction ≤ 0.01 ∧ sp.T_phase + 5 ≤ s.T_sat))
    (h2 : ¬(T_in ≤ s.T_sat + 0.5)) :
    (step_charge sp s T_in dt).state.time = s.time + dt := by
  by_cases hQ : 0 < chargeQ sp s.T_sat T_in
  · by_cases hT : s.T_sat < sp.T_phase - 0.1
    · rw [step_charge_solid sp s T_in dt h1 h2 hQ hT]
    by_cases hsf : 0.01 < s.solid_fraction
    · rw [step_charge_melt sp s T_in dt h1 h2 hQ hT hsf]
    · rw [step_charge_superheat sp s T_in dt h1 h2 hQ hT hsf]
  · rw [step_charge_noQ sp s T_in dt h1 h2 hQ]

theorem dischargeQ_formula (sp : ITB100Specs) (T_sat T_in : ℝ) :
    dischargeQ sp T_sat T_in =
      max 0 ((1 - Real.exp (-(sp.UA_effective / (sp.m_dot_design * sp.cp_water)))) *
        (sp.m_dot_design * sp.cp_water) * (T_sat - T_in)) := by
  unfold dischargeQ effectiveness NTU
  congr 1
  ring

theorem chargeQ_formula (sp : ITB100Specs) (T_sat T_in : ℝ) :
    chargeQ sp T_sat T_in =
      max 0 ((1 - Real.exp (-(sp.UA_effective / (sp.m_dot_design * sp.cp_water)))) *
        (sp.m_dot_design * sp.cp_water) * (T_in - T_sat)) := by
  unfold chargeQ effectiveness NTU
  congr 1
  ring

/-! ### Claim theorems -/

/-- C1 counterexample: the state with `T_sat = 58`, `solid_fraction = 0.995`
satisfies the claimed predicate (`0 < solid_fraction < 1` and temperature at
the phase-change point), yet one `step_discharge` call with inlet 20 degC and
`dt = 60` (which enters the fully-solid sensible-cooling branch because
`solid_fraction >= 0.99`) leaves the solid fraction at `0.995`, strictly
inside `(0, 1)`, while moving the temperature strictly below the phase-change
temperature.  The claimed predicate is therefore not preserved. -/
theorem C1_counterexample :
    ((0 : ℝ) < (⟨58, 0.995, 30000000, 0⟩ : ThermalState).solid_fraction ∧
      (⟨58, 0.995, 30000000, 0⟩ : ThermalState).solid_fraction < 1 ∧
      (⟨58, 0.995, 30000000, 0⟩ : ThermalState).T_sat = defaultSpecs.T_phase) ∧
    (0 < (step_discharge defaultSpecs ⟨58, 0.995, 30000000, 0⟩ 20 60).state.solid_fraction ∧
      (step_discharge defaultSpecs ⟨58, 0.995, 30000000, 0⟩ 20 60).state.solid_fraction < 1 ∧
      (step_discharge defaultSpecs ⟨58, 0.995, 30000000, 0⟩ 20 60).state.T_sat ≠
        defaultSpecs.T_phase) := by
  have hUA : 0 < defaultSpecs.UA_effective := by rw [defaultSpecs_UA_effective]; norm_num
  have hm : 0 < defaultSpecs.m_dot_design := by rw [defaultSpecs_m_dot_design]; norm_num
  have hc : 0 < defaultSpecs.cp_water := by rw [defaultSpecs_cp_water]; norm_num
  have hM : 0 < defaultSpecs.M_sat := by rw [defaultSpecs_M_sat]; norm_num
  have hcs : 0 < defaultSpecs.cp_sat_solid := by rw [defaultSpecs_cp_sat_solid]; norm_num
  have h1 : ¬((⟨58, 0.995, 30000000, 0⟩ : ThermalState).solid_fraction ≥ 0.99 ∧
      (⟨58, 0.995, 30000000, 0⟩ : ThermalState).T_sat < defaultSpecs.T_phase) := by
    rw [defaultSpecs_T_phase]
    intro hcon
    have := hcon.2
    norm_num at this
  have h2 : ¬((⟨58, 0.995, 30000000, 0⟩ : ThermalState).T_sat ≤ 20 + 0.5) := by norm_num
  have hQ : 0 < dischargeQ defaultSpecs
      (⟨58, 0.995, 30000000, 0⟩ : ThermalState).T_sat 20 :=
    dischargeQ_pos defaultSpecs hUA hm hc (by norm_num)
  have hT : ¬(defaultSpecs.T_phase + 0.1 <
      (⟨58, 0.995, 30000000, 0⟩ : ThermalState).T_sat) := by
    rw [defaultSpecs_T_phase]; norm_num
  have hsf : ¬((⟨58, 0.995, 30000000, 0⟩ : ThermalState).solid_fraction < 0.99) := by
    norm_num
  have hstep := step_discharge_solid defaultSpecs ⟨58, 0.995, 30000000, 0⟩ 20 60
    h1 h2 hQ hT hsf
  constructor
  · exact ⟨by norm_num, by norm_num, by rw [defaultSpecs_T_phase]; norm_num⟩
  · rw [hstep]
    refine ⟨by norm_num, by norm_num, ?_⟩
    have hpos : 0 < dischargeQ defaultSpecs
        (⟨58, 0.995, 30000000, 0⟩ : ThermalState).T_sat 20 * 60 /
        (defaultSpecs.M_sat * defaultSpecs.cp_sat_solid) :=
      div_pos (mul_pos hQ (by norm_num)) (mul_pos hM hcs)
    rw [defaultSpecs_T_phase]
    intro heq
    norm_num at heq
    rcases heq with h | h | h
    · exact (ne_of_gt hQ) h
    · exact (ne_of_gt hM) h
    · exact (ne_of_gt hcs) h

/-- C1 (amended): the latent-heat plateau holds on the open window strictly
between the guard thresholds: whenever `0.01 < solid_fraction < 0.99`, the
medium temperature equals the phase-change temperature; this predicate is
preserved by every `step_discharge` and `step_charge` call (any inlet
temperature, any positive `dt`) and holds in every reachable state. -/
theorem C1_phase_plateau (sp : ITB100Specs) :
    (∀ (s : ThermalState) (T_in dt : ℝ), 0 < dt → PhasePlateau sp s →
      PhasePlateau sp (step_discharge sp s T_in dt).state) ∧
    (∀ (s : ThermalState) (T_in dt : ℝ), 0 < dt → PhasePlateau sp s →
      PhasePlateau sp (step_charge sp s T_in dt).state) ∧
    (∀ s : ThermalState, Reachable sp s → PhasePlateau sp s) :=
  ⟨fun s T_in dt _ hs => phasePlateau_step_discharge sp s T_in dt hs,
   fun s T_in dt _ hs => phasePlateau_step_charge sp s T_in dt hs,
   fun s h => reachable_phasePlateau sp s h⟩

/-- Witness for C1 at a concrete plateau state, inlet 20 degC, `dt = 60`. -/
theorem C1_phase_plateau_witness :
    (0 : ℝ) < 60 ∧ PhasePlateau defaultSpecs ⟨58.0, 0.5, 30000000, 0⟩ ∧
      PhasePlateau defaultSpecs
        (step_discharge defaultSpecs ⟨58.0, 0.5, 30000000, 0⟩ 20 60).state := by
  have hp : PhasePlateau defaultSpecs ⟨58.0, 0.5, 30000000, 0⟩ := by
    intro _ _
    rw [defaultSpecs_T_phase]
  exact ⟨by norm_num, hp,
    (C1_phase_plateau defaultSpecs).1 ⟨58.0, 0.5, 30000000, 0⟩ 20 60 (by norm_num) hp⟩

/-- C2: from any state with solid fraction in `[0, 1]`, a single
`step_discharge` or `step_charge` call (any inlet temperature, positive `dt`)
keeps the solid fraction in `[0, 1]`, and `get_state_of_charge` always
returns a value in `[0, 1]`. -/
theorem C2_state_bounds (sp : ITB100Specs) (s : ThermalState) (T_in dt : ℝ)
    (hH : 0 < sp.delta_H_fusion) (hM : 0 < sp.M_sat) (hdt : 0 < dt)
    (hsf0 : 0 ≤ s.solid_fraction) (hsf1 : s.solid_fraction ≤ 1) :
    (0 ≤ (step_discharge sp s T_in dt).state.solid_fraction ∧
      (step_discharge sp s T_in dt).state.solid_fraction ≤ 1) ∧
    (0 ≤ (step_charge sp s T_in dt).state.solid_fraction ∧
      (step_charge sp s T_in dt).state.solid_fraction ≤ 1) ∧
    (∀ s2 : ThermalState, 0 ≤ get_state_of_charge sp s2 ∧
      get_state_of_charge sp s2 ≤ 1) :=
  ⟨step_discharge_sf_bounds sp s T_in dt hH hM hdt.le hsf0 hsf1,
   step_charge_sf_bounds sp s T_in dt hH hM hdt.le hsf0 hsf1,
   fun s2 => get_state_of_charge_mem_Icc sp s2⟩

/-- Witness for C2 at the default specification, a mid-plateau state, inlet
40 degC, `dt = 60`. -/
theorem C2_state_bounds_witness :
    (0 < defaultSpecs.delta_H_fusion ∧ 0 < defaultSpecs.M_sat ∧ (0 : ℝ) < 60 ∧
      (0 : ℝ) ≤ (⟨58, 0.5, 30000000, 0⟩ : ThermalState).solid_fraction ∧
      (⟨58, 0.5, 30000000, 0⟩ : ThermalState).solid_fraction ≤ 1) ∧
    ((0 ≤ (step_discharge defaultSpecs ⟨58, 0.5, 30000000, 0⟩ 40 60).state.solid_fraction ∧
      (step_discharge defaultSpecs ⟨58, 0.5, 30000000, 0⟩ 40 60).state.solid_fraction ≤ 1) ∧
    (0 ≤ (step_charge defaultSpecs ⟨58, 0.5, 30000000, 0⟩ 40 60).state.solid_fraction ∧
      (step_charge defaultSpecs ⟨58, 0.5, 30000000, 0⟩ 40 60).state.solid_fraction ≤ 1) ∧
    (∀ s2 : ThermalState, 0 ≤ get_state_of_charge defaultSpecs s2 ∧
      get_state_of_charge defaultSpecs s2 ≤ 1)) := by
  refine ⟨⟨?_, ?_, by norm_num, by norm_num, by norm_num⟩, ?_⟩
  · rw [defaultSpecs_delta_H_fusion]; norm_num
  · rw [defaultSpecs_M_sat]; norm_num
  · exact C2_state_bounds defaultSpecs ⟨58, 0.5, 30000000, 0⟩ 40 60
      (by rw [defaultSpecs_delta_H_fusion]; norm_num)
      (by rw [defaultSpecs_M_sat]; norm_num) (by norm_num) (by norm_num) (by norm_num)

/-- C3 counterexample: with the medium exactly at the phase-change
temperature (so "at or below" holds but the code's strict `<` guard does
not), fully solid (`solid_fraction = 0.995`) and inlet 40 degC, the claimed
antecedent holds, yet `step_discharge` does not return outlet = inlet: the
fully-solid sensible-cooling branch runs and the outlet is raised above the
inlet (the returned power is 0, but the outlet equality fails). -/
theorem C3_counterexample :
    ((⟨58, 0.995, 30000000, 0⟩ : ThermalState).solid_fraction ≥ 0.99 ∧
      (⟨58, 0.995, 30000000, 0⟩ : ThermalState).T_sat ≤ defaultSpecs.T_phase) ∧
    ¬((step_discharge defaultSpecs ⟨58, 0.995, 30000000, 0⟩ 40 60).Q = 0 ∧
      (step_discharge defaultSpecs ⟨58, 0.995, 30000000, 0⟩ 40 60).T_out = 40) := by
  have hUA : 0 < defaultSpecs.UA_effective := by rw [defaultSpecs_UA_effective]; norm_num
  have hm : 0 < defaultSpecs.m_dot_design := by rw [defaultSpecs_m_dot_design]; norm_num
  have hc : 0 < defaultSpecs.cp_water := by rw [defaultSpecs_cp_water]; norm_num
  have h1 : ¬((⟨58, 0.995, 30000000, 0⟩ : ThermalState).solid_fraction ≥ 0.99 ∧
      (⟨58, 0.995, 30000000, 0⟩ : ThermalState).T_sat < defaultSpecs.T_phase) := by
    rw [defaultSpecs_T_phase]
    intro hcon
    have := hcon.2
    norm_num at this
  have h2 : ¬((⟨58, 0.995, 30000000, 0⟩ : ThermalState).T_sat ≤ 40 + 0.5) := by norm_num
  have hQ : 0 < dischargeQ defaultSpecs
      (⟨58, 0.995, 30000000, 0⟩ : ThermalState).T_sat 40 :=
    dischargeQ_pos defaultSpecs hUA hm hc (by norm_num)
  have hT : ¬(defaultSpecs.T_phase + 0.1 <
      (⟨58, 0.995, 30000000, 0⟩ : ThermalState).T_sat) := by
    rw [defaultSpecs_T_phase]; norm_num
  have hsf : ¬((⟨58, 0.995, 30000000, 0⟩ : ThermalState).solid_fraction < 0.99) := by
    norm_num
  have hstep := step_discharge_solid defaultSpecs ⟨58, 0.995, 30000000, 0⟩ 40 60
    h1 h2 hQ hT hsf
  constructor
  · exact ⟨by norm_num, by rw [defaultSpecs_T_phase]; norm_num⟩
  · rw [hstep]
    intro hcon
    have hout := hcon.2
    have hdiv : 0 < dischargeQ defaultSpecs
        (⟨58, 0.995, 30000000, 0⟩ : ThermalState).T_sat 40 /
        (defaultSpecs.m_dot_design * defaultSpecs.cp_water) :=
      div_pos hQ (mul_pos hm hc)
    simp only at hout
    linarith

/-- C3 (amended): "at or below the phase-change temperature" is corrected to
"strictly below": if the medium is fully solid (`solid_fraction >= 0.99`)
with temperature strictly below the phase-change temperature, or the medium
temperature is not at least 0.5 degC above the inlet temperature, then
`step_discharge` returns zero power and outlet temperature equal to the
inlet temperature. -/
theorem C3_discharge_guard (sp : ITB100Specs) (s : ThermalState) (T_in dt : ℝ)
    (h : (s.solid_fraction ≥ 0.99 ∧ s.T_sat < sp.T_phase) ∨ s.T_sat < T_in + 0.5) :
    (step_discharge sp s T_in dt).Q = 0 ∧
      (step_discharge sp s T_in dt).T_out = T_in := by
  rcases h with h1 | h2
  · rw [step_discharge_guard1 sp s T_in dt h1]
    exact ⟨rfl, rfl⟩
  · by_cases h1 : s.solid_fraction ≥ 0.99 ∧ s.T_sat < sp.T_phase
    · rw [step_discharge_guard1 sp s T_in dt h1]
      exact ⟨rfl, rfl⟩
    · rw [step_discharge_guard2 sp s T_in dt h1 h2.le]
      exact ⟨rfl, rfl⟩

/-- Witness for C3 at a cold solid state against a warmer inlet. -/
theorem C3_discharge_guard_witness :
    (((⟨30, 1, 0, 0⟩ : ThermalState).solid_fraction ≥ 0.99 ∧
        (⟨30, 1, 0, 0⟩ : ThermalState).T_sat < defaultSpecs.T_phase) ∨
      (⟨30, 1, 0, 0⟩ : ThermalState).T_sat < (40 : ℝ) + 0.5) ∧
    (step_discharge defaultSpecs ⟨30, 1, 0, 0⟩ 40 60).Q = 0 ∧
    (step_discharge defaultSpecs ⟨30, 1, 0, 0⟩ 40 60).T_out = 40 := by
  have h : ((⟨30, 1, 0, 0⟩ : ThermalState).solid_fraction ≥ 0.99 ∧
        (⟨30, 1, 0, 0⟩ : ThermalState).T_sat < defaultSpecs.T_phase) ∨
      (⟨30, 1, 0, 0⟩ : ThermalState).T_sat < (40 : ℝ) + 0.5 :=
    Or.inr (by norm_num)
  exact ⟨h, C3_discharge_guard defaultSpecs ⟨30, 1, 0, 0⟩ 40 60 h⟩

/-- C4: outside the guards, the pre-override transfer power is the claimed
effectiveness-NTU expression; for discharge the outlet is
`T_in + power / (m_dot * cp_water)` and stored energy drops by
`power * dt`; for charge the outlet is `T_in - power / (m_dot * cp_water)`
with driving difference `T_in - T_sat` and stored energy rises by
`power * dt`. -/
theorem C4_ntu_formula (sp : ITB100Specs) (s : ThermalState) (T_in dt : ℝ)
    (hUA : 0 < sp.UA_effective) (hm : 0 < sp.m_dot_design)
    (hc : 0 < sp.cp_water) :
    (¬(s.solid_fraction ≥ 0.99 ∧ s.T_sat < sp.T_phase) →
      ¬(s.T_sat ≤ T_in + 0.5) →
      (step_discharge sp s T_in dt).T_out = T_in +
        max 0 ((1 - Real.exp (-(sp.UA_effective / (sp.m_dot_design * sp.cp_water)))) *
          (sp.m_dot_design * sp.cp_water) * (s.T_sat - T_in)) /
          (sp.m_dot_design * sp.cp_water) ∧
      (step_discharge sp s T_in dt).state.E_stored = s.E_stored -
        max 0 ((1 - Real.exp (-(sp.UA_effective / (sp.m_dot_design * sp.cp_water)))) *
          (sp.m_dot_design * sp.cp_water) * (s.T_sat - T_in)) * dt) ∧
    (¬(s.solid_fraction ≤ 0.01 ∧ sp.T_phase + 5 ≤ s.T_sat) →
      ¬(T_in ≤ s.T_sat + 0.5) →
      (step_charge sp s T_in dt).T_out = T_in -
        max 0 ((1 - Real.exp (-(sp.UA_effective / (sp.m_dot_design * sp.cp_water)))) *
          (sp.m_dot_design * sp.cp_water) * (T_in - s.T_sat)) /
          (sp.m_dot_design * sp.cp_water) ∧
      (step_charge sp s T_in dt).state.E_stored = s.E_stored +
        max 0 ((1 - Real.exp (-(sp.UA_effective / (sp.m_dot_design * sp.cp_water)))) *
          (sp.m_dot_design * sp.cp_water) * (T_in - s.T_sat)) * dt) := by
  constructor
  · intro h1 h2
    have hQ : 0 < dischargeQ sp s.T_sat T_in :=
      dischargeQ_pos sp hUA hm hc (by linarith [not_le.mp h2])
    rw [← dischargeQ_formula]
    exact ⟨step_discharge_outlet sp s T_in dt h1 h2 hQ,
      step_discharge_energy sp s T_in dt h1 h2 hQ⟩
  · intro h1 h2
    have hQ : 0 < chargeQ sp s.T_sat T_in :=
      chargeQ_pos sp hUA hm hc (by linarith [not_le.mp h2])
    rw [← chargeQ_formula]
    exact ⟨step_charge_outlet sp s T_in dt h1 h2 hQ,
      step_charge_energy sp s T_in dt h1 h2 hQ⟩

/-- Witness for C4 at the default specification, a plateau state, inlet
40 degC for discharge (and the same state with inlet 70 degC is covered by
the discharge conjunct's hypotheses only). -/
theorem C4_ntu_formula_witness :
    (0 < defaultSpecs.UA_effective ∧ 0 < defaultSpecs.m_dot_design ∧
      0 < defaultSpecs.cp_water ∧
      ¬((⟨58, 0.5, 30000000, 0⟩ : ThermalState).solid_fraction ≥ 0.99 ∧
        (⟨58, 0.5, 30000000, 0⟩ : ThermalState).T_sat < defaultSpecs.T_phase) ∧
      ¬((⟨58, 0.5, 30000000, 0⟩ : ThermalState).T_sat ≤ (40 : ℝ) + 0.5)) ∧
    ((step_discharge defaultSpecs ⟨58, 0.5, 30000000, 0⟩ 40 60).T_out = 40 +
      max 0 ((1 - Real.exp (-(defaultSpecs.UA_effective /
          (defaultSpecs.m_dot_design * defaultSpecs.cp_water)))) *
        (defaultSpecs.m_dot_design * defaultSpecs.cp_water) *
        ((⟨58, 0.5, 30000000, 0⟩ : ThermalState).T_sat - 40)) /
        (defaultSpecs.m_dot_design * defaultSpecs.cp_water) ∧
    (step_discharge defaultSpecs ⟨58, 0.5, 30000000, 0⟩ 40 60).state.E_stored =
      (⟨58, 0.5, 30000000, 0⟩ : ThermalState).E_stored -
      max 0 ((1 - Real.exp (-(defaultSpecs.UA_effective /
          (defaultSpecs.m_dot_design * defaultSpecs.cp_water)))) *
        (defaultSpecs.m_dot_design * defaultSpecs.cp_water) *
        ((⟨58, 0.5, 30000000, 0⟩ : ThermalState).T_sat - 40)) * 60) := by
  have hUA : 0 < defaultSpecs.UA_effective := by rw [defaultSpecs_UA_effective]; norm_num
  have hm : 0 < defaultSpecs.m_dot_design := by rw [defaultSpecs_m_dot_design]; norm_num
  have hc : 0 < defaultSpecs.cp_water := by rw [defaultSpecs_cp_water]; norm_num
  have h1 : ¬((⟨58, 0.5, 30000000, 0⟩ : ThermalState).solid_fraction ≥ 0.99 ∧
      (⟨58, 0.5, 30000000, 0⟩ : ThermalState).T_sat < defaultSpecs.T_phase) := by
    intro hcon
    have := hcon.1
    norm_num at this
  have h2 : ¬((⟨58, 0.5, 30000000, 0⟩ : ThermalState).T_sat ≤ (40 : ℝ) + 0.5) := by
    norm_num
  exact ⟨⟨hUA, hm, hc, h1, h2⟩,
    (C4_ntu_formula defaultSpecs ⟨58, 0.5, 30000000, 0⟩ 40 60 hUA hm hc).1 h1 h2⟩

/-- C5: every recorded sample of `simulate_charge` records exactly
`min(engine power, available power)` — hence never more than the profile's
available power — while the state update inside the step added the
unclamped engine power times `dt` to the stored energy (the clipped energy
is not fed back into the state). -/
theorem C5_charge_clamp (sp : ITB100Specs) (profile : List (ℝ × ℝ)) (dt : ℝ)
    (x : ChargeSample) (hx : x ∈ simulate_charge sp profile dt) :
    x.Q_rec = min x.Q_engine x.Q_avail ∧ x.Q_rec ≤ x.Q_avail ∧
      x.statePost.E_stored = x.statePre.E_stored + x.Q_engine * dt :=
  charge_sample_spec sp dt profile _ x hx

/-- Witness for C5 on a one-sample solar profile (1000 W available, 70 degC
collector temperature) with `dt = 60`. -/
theorem C5_charge_clamp_witness :
    ((simulate_charge defaultSpecs [(1000, 70)] 60).getD 0 default ∈
      simulate_charge defaultSpecs [(1000, 70)] 60) ∧
    (((simulate_charge defaultSpecs [(1000, 70)] 60).getD 0 default).Q_rec =
      min ((simulate_charge defaultSpecs [(1000, 70)] 60).getD 0 default).Q_engine
        ((simulate_charge defaultSpecs [(1000, 70)] 60).getD 0 default).Q_avail ∧
    ((simulate_charge defaultSpecs [(1000, 70)] 60).getD 0 default).Q_rec ≤
      ((simulate_charge defaultSpecs [(1000, 70)] 60).getD 0 default).Q_avail ∧
    ((simulate_charge defaultSpecs [(1000, 70)] 60).getD 0 default).statePost.E_stored =
      ((simulate_charge defaultSpecs [(1000, 70)] 60).getD 0 default).statePre.E_stored +
        ((simulate_charge defaultSpecs [(1000, 70)] 60).getD 0 default).Q_engine * 60) := by
  have hlen : 0 < (simulate_charge defaultSpecs [(1000, 70)] 60).length := by
    simp only [simulate_charge, simulate_charge_aux]
    split_ifs <;> simp
  have hmem : (simulate_charge defaultSpecs [(1000, 70)] 60).getD 0 default ∈
      simulate_charge defaultSpecs [(1000, 70)] 60 := by
    rw [List.getD_eq_getElem _ _ hlen]
    exact List.getElem_mem hlen
  exact ⟨hmem, C5_charge_clamp defaultSpecs [(1000, 70)] 60 _ hmem⟩

/-- C6: with the guards passed and the medium fully solid
(`solid_fraction >= 0.99`) at a temperature not above the phase-change
temperature plus 0.1 degC, `step_discharge` returns zero power while the
stored energy strictly decreases; and on every guard-passing step the stored
energy decreases by exactly the removed energy `dischargeQ * dt` (all three
regimes). -/
theorem C6_solid_no_credit (sp : ITB100Specs) (s : ThermalState) (T_in dt : ℝ)
    (hUA : 0 < sp.UA_effective) (hm : 0 < sp.m_dot_design) (hc : 0 < sp.cp_water)
    (hdt : 0 < dt)
    (h1 : ¬(s.solid_fraction ≥ 0.99 ∧ s.T_sat < sp.T_phase))
    (h2 : ¬(s.T_sat ≤ T_in + 0.5)) :
    (s.solid_fraction ≥ 0.99 → ¬(sp.T_phase + 0.1 < s.T_sat) →
      (step_discharge sp s T_in dt).Q = 0 ∧
      (step_discharge sp s T_in dt).state.E_stored < s.E_stored) ∧
    (step_discharge sp s T_in dt).state.E_stored =
      s.E_stored - dischargeQ sp s.T_sat T_in * dt := by
  have hQ : 0 < dischargeQ sp s.T_sat T_in :=
    dischargeQ_pos sp hUA hm hc (by linarith [not_le.mp h2])
  constructor
  · intro hsf99 hT
    have hsf : ¬(s.solid_fraction < 0.99) := not_lt.mpr hsf99
    rw [step_discharge_solid sp s T_in dt h1 h2 hQ hT hsf]
    refine ⟨rfl, ?_⟩
    have : 0 < dischargeQ sp s.T_sat T_in * dt := mul_pos hQ hdt
    simp only
    linarith
  · exact step_discharge_energy sp s T_in dt h1 h2 hQ

/-- Witness for C6 at the boundary state `T_sat = 58`, `solid_fraction =
0.995`, inlet 40 degC, `dt = 60`. -/
theorem C6_solid_no_credit_witness :
    (0 < defaultSpecs.UA_effective ∧ 0 < defaultSpecs.m_dot_design ∧
      0 < defaultSpecs.cp_water ∧ (0 : ℝ) < 60 ∧
      ¬((⟨58, 0.995, 30000000, 0⟩ : ThermalState).solid_fraction ≥ 0.99 ∧
        (⟨58, 0.995, 30000000, 0⟩ : ThermalState).T_sat < defaultSpecs.T_phase) ∧
      ¬((⟨58, 0.995, 30000000, 0⟩ : ThermalState).T_sat ≤ (40 : ℝ) + 0.5) ∧
      (⟨58, 0.995, 30000000, 0⟩ : ThermalState).solid_fraction ≥ 0.99 ∧
      ¬(defaultSpecs.T_phase + 0.1 < (⟨58, 0.995, 30000000, 0⟩ : ThermalState).T_sat)) ∧
    ((step_discharge defaultSpecs ⟨58, 0.995, 30000000, 0⟩ 40 60).Q = 0 ∧
      (step_discharge defaultSpecs ⟨58, 0.995, 30000000, 0⟩ 40 60).state.E_stored <
        (⟨58, 0.995, 30000000, 0⟩ : ThermalState).E_stored) ∧
    (step_discharge defaultSpecs ⟨58, 0.995, 30000000, 0⟩ 40 60).state.E_stored =
      (⟨58, 0.995, 30000000, 0⟩ : ThermalState).E_stored -
        dischargeQ defaultSpecs (⟨58, 0.995, 30000000, 0⟩ : ThermalState).T_sat 40 * 60 := by
  have hUA : 0 < defaultSpecs.UA_effective := by rw [defaultSpecs_UA_effective]; norm_num
  have hm : 0 < defaultSpecs.m_dot_design := by rw [defaultSpecs_m_dot_design]; norm_num
  have hc : 0 < defaultSpecs.cp_water := by rw [defaultSpecs_cp_water]; norm_num
  have h1 : ¬((⟨58, 0.995, 30000000, 0⟩ : ThermalState).solid_fraction ≥ 0.99 ∧
      (⟨58, 0.995, 30000000, 0⟩ : ThermalState).T_sat < defaultSpecs.T_phase) := by
    rw [defaultSpecs_T_phase]
    intro hcon
    have := hcon.2
    norm_num at this
  have h2 : ¬((⟨58, 0.995, 30000000, 0⟩ : ThermalState).T_sat ≤ (40 : ℝ) + 0.5) := by
    norm_num
  have hsf99 : (⟨58, 0.995, 30000000, 0⟩ : ThermalState).solid_fraction ≥ 0.99 := by
    norm_num
  have hT : ¬(defaultSpecs.T_phase + 0.1 <
      (⟨58, 0.995, 30000000, 0⟩ : ThermalState).T_sat) := by
    rw [defaultSpecs_T_phase]; norm_num
  have hmain := C6_solid_no_credit defaultSpecs ⟨58, 0.995, 30000000, 0⟩ 40 60
    hUA hm hc (by norm_num) h1 h2
  exact ⟨⟨hUA, hm, hc, by norm_num, h1, h2, hsf99, hT⟩, hmain.1 hsf99 hT, hmain.2⟩

/-- C7: `step_discharge` never increases the state of charge and
`step_charge` never decreases it (any state, any inlet temperature, any
positive `dt`); consequently over any uninterrupted sequence of discharge
steps the state of charge is non-increasing and over any uninterrupted
sequence of charge steps it is non-decreasing. -/
theorem C7_soc_monotone (sp : ITB100Specs) (hE : 0 < sp.E_storage) :
    (∀ (s : ThermalState) (T_in dt : ℝ), 0 < dt →
      get_state_of_charge sp (step_discharge sp s T_in dt).state ≤
        get_state_of_charge sp s) ∧
    (∀ (s : ThermalState) (T_in dt : ℝ), 0 < dt →
      get_state_of_charge sp s ≤
        get_state_of_charge sp (step_charge sp s T_in dt).state) ∧
    (∀ (steps : List (ℝ × ℝ)) (s : ThermalState), (∀ p ∈ steps, 0 < p.2) →
      get_state_of_charge sp (runDischarge sp steps s) ≤
        get_state_of_charge sp s) ∧
    (∀ (steps : List (ℝ × ℝ)) (s : ThermalState), (∀ p ∈ steps, 0 < p.2) →
      get_state_of_charge sp s ≤
        get_state_of_charge sp (runCharge sp steps s)) :=
  ⟨fun s T_in dt hdt => soc_step_discharge_le sp s T_in dt hE hdt.le,
   fun s T_in dt hdt => soc_step_charge_ge sp s T_in dt hE hdt.le,
   fun steps s hsteps =>
     runDischarge_soc_le sp hE steps s (fun p hp => (hsteps p hp).le),
   fun steps s hsteps =>
     runCharge_soc_ge sp hE steps s (fun p hp => (hsteps p hp).le)⟩

/-- Witness for C7: one discharge step and a two-step discharge sequence at
the default specification. -/
theorem C7_soc_monotone_witness :
    (0 < defaultSpecs.E_storage ∧ (0 : ℝ) < 60 ∧
      (∀ p ∈ [((40 : ℝ), (60 : ℝ)), ((40 : ℝ), (60 : ℝ))], 0 < p.2)) ∧
    get_state_of_charge defaultSpecs
        (step_discharge defaultSpecs ⟨58, 0.5, 30000000, 0⟩ 40 60).state ≤
      get_state_of_charge defaultSpecs ⟨58, 0.5, 30000000, 0⟩ ∧
    get_state_of_charge defaultSpecs
        (runDischarge defaultSpecs [((40 : ℝ), (60 : ℝ)), ((40 : ℝ), (60 : ℝ))]
          ⟨58, 0.5, 30000000, 0⟩) ≤
      get_state_of_charge defaultSpecs ⟨58, 0.5, 30000000, 0⟩ := by
  have hE : 0 < defaultSpecs.E_storage := by rw [defaultSpecs_E_storage]; norm_num
  have hsteps : ∀ p ∈ [((40 : ℝ), (60 : ℝ)), ((40 : ℝ), (60 : ℝ))], (0 : ℝ) < p.2 := by
    intro p hp
    simp only [List.mem_cons, List.mem_singleton, List.not_mem_nil, or_false] at hp
    rcases hp with h | h <;> (subst h; norm_num)
  exact ⟨⟨hE, by norm_num, hsteps⟩,
    (C7_soc_monotone defaultSpecs hE).1 ⟨58, 0.5, 30000000, 0⟩ 40 60 (by norm_num),
    (C7_soc_monotone defaultSpecs hE).2.2.1 _ ⟨58, 0.5, 30000000, 0⟩ hsteps⟩

/-- C8: for positive `dt` the discharge simulation terminates through the
loop's own conditions (the returned flag is true, i.e. the chosen iteration
bound is never exhausted), every recorded time stays below 12 hours, no
break condition (state of charge below 1 percent; power below 100 W after
the first simulated hour) nor the 12-hour while-bound holds before the final
sample, and at the final sample a break condition or the 12-hour bound
holds. -/
theorem C8_discharge_termination (sp : ITB100Specs) (T_supply dt : ℝ)
    (hdt : 0 < dt) :
    (simulate_discharge sp T_supply dt).2 = true ∧
    (∀ x ∈ (simulate_discharge sp T_supply dt).1, x.time_h < 12) ∧
    (∀ i : ℕ, i + 1 < ((simulate_discharge sp T_supply dt).1).length →
      ((i : ℝ) + 1) * dt < 43200 ∧
      ¬ dischargeStop (((simulate_discharge sp T_supply dt).1).getD i default)
        (((i : ℝ) + 1) * dt)) ∧
    ((simulate_discharge sp T_supply dt).1 ≠ [] →
      dischargeStop (((simulate_discharge sp T_supply dt).1).getD
          (((simulate_discharge sp T_supply dt).1).length - 1) default)
        ((((simulate_discharge sp T_supply dt).1).length : ℝ) * dt) ∨
      43200 ≤ (((simulate_discharge sp T_supply dt).1).length : ℝ) * dt) := by
  have hflag : (simulate_discharge sp T_supply dt).2 = true :=
    dischargeLoop_flag sp T_supply dt (dischargeFuel dt) 0 (dischargeInit sp)
      (dischargeFuel_spec dt hdt)
  refine ⟨hflag, ?_, ?_, ?_⟩
  · intro x hx
    exact dischargeLoop_time_lt sp T_supply dt (dischargeFuel dt) 0
      (dischargeInit sp) x hx
  · intro i hi
    have h := dischargeLoop_no_early_stop sp T_supply dt (dischargeFuel dt) 0
      (dischargeInit sp) i hi
    rwa [zero_add] at h
  · intro hne
    have h := dischargeLoop_last_stop sp T_supply dt (dischargeFuel dt) 0
      (dischargeInit sp) hflag hne
    rwa [zero_add] at h

/-- Witness for C8 at the default specification, supply 40 degC,
`dt = 60`. -/
theorem C8_discharge_termination_witness :
    (0 : ℝ) < 60 ∧
    ((simulate_discharge defaultSpecs 40 60).2 = true ∧
    (∀ x ∈ (simulate_discharge defaultSpecs 40 60).1, x.time_h < 12) ∧
    (∀ i : ℕ, i + 1 < ((simulate_discharge defaultSpecs 40 60).1).length →
      ((i : ℝ) + 1) * 60 < 43200 ∧
      ¬ dischargeStop (((simulate_discharge defaultSpecs 40 60).1).getD i default)
        (((i : ℝ) + 1) * 60)) ∧
    ((simulate_discharge defaultSpecs 40 60).1 ≠ [] →
      dischargeStop (((simulate_discharge defaultSpecs 40 60).1).getD
          (((simulate_discharge defaultSpecs 40 60).1).length - 1) default)
        ((((simulate_discharge defaultSpecs 40 60).1).length : ℝ) * 60) ∨
      43200 ≤ (((simulate_discharge defaultSpecs 40 60).1).length : ℝ) * 60)) :=
  ⟨by norm_num, C8_discharge_termination defaultSpecs 40 60 (by norm_num)⟩

/-- C9: the specification dataclass and the model constructor perform no
validation whatsoever — constructing with a negative storage mass, a zero
UA, or a negative flow rate succeeds and simply stores the non-physical
values, and the model initializes to the ordinary reset state; no
configuration error exists in the code. -/
theorem C9_no_construction_validation :
    ({ M_sat := -1 } : ITB100Specs).M_sat = -1 ∧
    ({ UA_effective := 0 } : ITB100Specs).UA_effective = 0 ∧
    ({ m_dot_design := -0.074 } : ITB100Specs).m_dot_design = -0.074 ∧
    ThermalBatteryModel.init { M_sat := -1 } = reset_state ∧
    ThermalBatteryModel.init defaultSpecs = reset_state :=
  ⟨rfl, rfl, rfl, rfl, rfl⟩

/-- C10: whenever a guard branch of `step_discharge` or `step_charge` fires,
the returned value is exactly `(0, inlet)` with the state (all four fields,
elapsed time included) unchanged; on every guard-passing path the elapsed
time advances by exactly `dt`. -/
theorem C10_guard_frame (sp : ITB100Specs) (s : ThermalState) (T_in dt : ℝ) :
    (((s.solid_fraction ≥ 0.99 ∧ s.T_sat < sp.T_phase) ∨ s.T_sat ≤ T_in + 0.5) →
      step_discharge sp s T_in dt = ⟨0, T_in, s⟩) ∧
    (¬(s.solid_fraction ≥ 0.99 ∧ s.T_sat < sp.T_phase) →
      ¬(s.T_sat ≤ T_in + 0.5) →
      (step_discharge sp s T_in dt).state.time = s.time + dt) ∧
    (((s.solid_fraction ≤ 0.01 ∧ sp.T_phase + 5 ≤ s.T_sat) ∨ T_in ≤ s.T_sat + 0.5) →
      step_charge sp s T_in dt = ⟨0, T_in, s⟩) ∧
    (¬(s.solid_fraction ≤ 0.01 ∧ sp.T_phase + 5 ≤ s.T_sat) →
      ¬(T_in ≤ s.T_sat + 0.5) →
      (step_charge sp s T_in dt).state.time = s.time + dt) := by
  refine ⟨?_, step_discharge_time sp s T_in dt, ?_, step_charge_time sp s T_in dt⟩
  · intro h
    rcases h with h1 | h2
    · exact step_discharge_guard1 sp s T_in dt h1
    · by_cases h1 : s.solid_fraction ≥ 0.99 ∧ s.T_sat < sp.T_phase
      · exact step_discharge_guard1 sp s T_in dt h1
      · exact step_discharge_guard2 sp s T_in dt h1 h2
  · intro h
    rcases h with h1 | h2
    · exact step_charge_guard1 sp s T_in dt h1
    · by_cases h1 : s.solid_fraction ≤ 0.01 ∧ sp.T_phase + 5 ≤ s.T_sat
      · exact step_charge_guard1 sp s T_in dt h1
      · exact step_charge_guard2 sp s T_in dt h1 h2

/-- Witness for C10: the inlet-temperature guard of each step function at
concrete cold-solid and hot-liquid states. -/
theorem C10_guard_frame_witness :
    ((⟨30, 1, 0, 0⟩ : ThermalState).T_sat ≤ (40 : ℝ) + 0.5) ∧
    step_discharge defaultSpecs ⟨30, 1, 0, 0⟩ 40 60 = ⟨0, 40, ⟨30, 1, 0, 0⟩⟩ ∧
    ((40 : ℝ) ≤ (⟨70, 1, 0, 0⟩ : ThermalState).T_sat + 0.5) ∧
    step_charge defaultSpecs ⟨70, 1, 0, 0⟩ 40 60 = ⟨0, 40, ⟨70, 1, 0, 0⟩⟩ := by
  refine ⟨by norm_num, ?_, by norm_num, ?_⟩
  · exact (C10_guard_frame defaultSpecs ⟨30, 1, 0, 0⟩ 40 60).1 (Or.inr (by norm_num))
  · exact (C10_guard_frame defaultSpecs ⟨70, 1, 0, 0⟩ 40 60).2.2.1 (Or.inr (by norm_num))
